import Mathlib

/-!
# MamaCare backend — account lifecycle verification

Shallow embedding of the account-lifecycle subsystem of the MamaCare
backend (an Express/MySQL service).  The repository holds two revisions
of one server file: the consolidated revision (`src/unnamed/part_000`,
with startup environment validation, rate limiting and auto-login on
verification) and a legacy revision (`src/server.js`).  The spec treats
the two as one logical file whose reference behaviour is the
consolidated revision; both are embedded below where they differ.

Strings model JavaScript strings (lengths are counted in characters
here, in UTF-16 units there; identical on the ASCII inputs used).
JavaScript truthiness of a request-body string field is modelled by
non-emptiness (`undefined` and `""` are both falsy and both rejected by
the same guard, so absent fields are modelled as `""`).
-/

namespace MamaCare

/-- One row of the `users` table.  `verification_code` holds the bcrypt
digest of the one-time code and is `none` once the column is set to SQL
`NULL` by the verification update.  -/
structure Account where
  id : Nat
  name : String
  email : String
  password : String
  verification_code : Option String
  is_verified : Bool
deriving DecidableEq, Repr

/-- Claims carried by a signed session token:
`jwt.sign({ userId: user.id, email: user.email }, SECRET, { expiresIn: "1h" })`.
The signature is modelled by recording the signing secret; `exp` is the
issuance time plus 3600 seconds. -/
structure SignedToken where
  userId : Nat
  email : String
  exp : Nat
  secret : String
deriving DecidableEq, Repr

/-- The `user` object embedded in success responses:
`{ id: user.id, name: user.name, email: user.email }` — by construction
it carries no password hash and no code hash. -/
structure UserInfo where
  id : Nat
  name : String
  email : String
deriving DecidableEq, Repr

/-- A JSON response: HTTP status plus the fields the handlers emit.
`diag` models the `error: error.message` diagnostic field of the catch
handlers. -/
structure Response where
  status : Nat
  message : String
  token : Option SignedToken := none
  user : Option UserInfo := none
  redirect : Option String := none
  diag : Option String := none
deriving DecidableEq, Repr

/-- Modelled from the spec: the Credential Hasher (`bcryptjs`, a library
collaborator whose code is not under `src/`) offers
`hash(secret) -> digest`, one-way and compared only via `verify`.  The
digest is modelled as a tagged copy of the secret, which realises the
contract `verify s (hash s) = true` and keeps digests disjoint from
plaintexts. -/
def bhash (secret : String) : String := "bcrypt$" ++ secret

/-- Modelled from the spec: `verify(secret, digest) -> bool`
(`bcrypt.compare`). -/
def bverify (secret digest : String) : Bool := bhash secret == digest

/-- Modelled from the spec: comparison against a possibly-`NULL` stored
digest; an absent digest matches no secret (spec §8: after the code hash
is cleared, the original code "no longer matches"). -/
def bverifyOpt (secret : String) (digest : Option String) : Bool :=
  match digest with
  | some d => bverify secret d
  | none => false

/-- JavaScript truthiness of a request-body string field. -/
def strTruthy (s : String) : Bool := !s.isEmpty

/-- A character of the class `[^\s@]` of the email regex (whitespace per
JavaScript `\s`, restricted to the ASCII whitespace characters). -/
def isEmailAtomChar (c : Char) : Bool :=
  !(c == '@' || c == ' ' || c == '\t' || c == '\n' || c == '\r'
    || c == '\x0b' || c == '\x0c')

/-- The signup/contact email check `/^[^\s@]+@[^\s@]+\.[^\s@]+$/`:
exactly one `@` (both character classes exclude `@`, so the split is at
the first and only `@`), non-empty whitespace-free halves, and a literal
dot in the domain with at least one character on each side (`.` itself
lies in the class `[^\s@]`, so the dot need only avoid the first and
last position of the domain). -/
def emailRegexTest (s : String) : Bool :=
  let cs := s.data
  let localPart := cs.takeWhile (fun c => !(c == '@'))
  match cs.dropWhile (fun c => !(c == '@')) with
  | '@' :: domain =>
      !localPart.isEmpty && localPart.all isEmailAtomChar &&
      !domain.isEmpty && domain.all isEmailAtomChar &&
      (domain.drop 1).dropLast.any (fun c => c == '.')
  | _ => false

/-- `SELECT * FROM users WHERE email = ?` over the modelled table. -/
def selectByEmail (store : List Account) (email : String) : List Account :=
  store.filter (fun a => a.email == email)

/-- `UPDATE users SET is_verified = true, verification_code = NULL WHERE email = ?`. -/
def setVerified (store : List Account) (email : String) : List Account :=
  store.map (fun a =>
    if a.email == email then
      { a with is_verified := true, verification_code := none }
    else a)

/-- The row the signup `INSERT` writes:
`(name, email, password, verification_code, is_verified) =
(name, email, hashedPassword, hashedCode, false)`, with the id the
store assigns. -/
def pendingAccount (freshId : Nat) (name email password vcode : String) : Account :=
  { id := freshId, name := name, email := email,
    password := bhash password,
    verification_code := some (bhash vcode), is_verified := false }

/-- `POST /api/signup` (`src/unnamed/part_000` lines 103–167).
Nondeterministic inputs of the handler are explicit parameters: `freshId`
is the id the insert assigns, `vcode` the generated 6-digit code
(`Math.floor(100000 + Math.random() * 900000).toString()`), `insertError`
the outcome of the `INSERT` (`some msg` models a thrown store error, e.g.
a duplicate-key violation, which lands in the generic catch handler), and
`mailOk` the outcome of `transporter.sendMail`.  Returns the response and
the resulting `users` table. -/
def signup (store : List Account) (name email password : String)
    (freshId : Nat) (vcode : String) (insertError : Option String)
    (mailOk : Bool) : Response × List Account :=
  if !(strTruthy name) || !(strTruthy email) || !(strTruthy password) then
    ({ status := 400, message := "Missing required fields: name, email, password" }, store)
  else if !(emailRegexTest email) then
    ({ status := 400, message := "Invalid email format" }, store)
  else if name.length > 255 || email.length > 255 || password.length < 8 then
    ({ status := 400, message := "Invalid input lengths" }, store)
  else if (selectByEmail store email).length > 0 then
    ({ status := 400, message := "Email already registered" }, store)
  else
    match insertError with
    | some errMsg =>
        ({ status := 500, message := "Failed to register user", diag := some errMsg }, store)
    | none =>
        let store2 := store ++ [pendingAccount freshId name email password vcode]
        if mailOk then
          ({ status := 201,
             message := "User registered successfully! Please check your email for the verification code.",
             redirect := some "/verify" }, store2)
        else
          ({ status := 500,
             message := "User registered, but failed to send verification email" }, store2)

/-- `POST /api/verify-email` (`src/unnamed/part_000` lines 170–235).
`users.length === 0` and `users[0]` are modelled by `head?` of the
selection.  The confirmation-email delivery outcome is logged and
otherwise ignored by the handler, so it does not occur in the result.
Returns the response and the resulting `users` table. -/
def verifyEmail (store : List Account) (email code : String)
    (secret : String) (now : Nat) (_confirmMailOk : Bool) :
    Response × List Account :=
  if !(strTruthy email) || !(strTruthy code) then
    ({ status := 400, message := "Missing required fields: email, code" }, store)
  else
    match (selectByEmail store email).head? with
    | none => ({ status := 404, message := "User not found" }, store)
    | some user =>
        if !(bverifyOpt code user.verification_code) then
          ({ status := 400, message := "Invalid verification code" }, store)
        else
          ({ status := 200,
             message := "Email verified successfully! You\x27re now logged in.",
             token := some { userId := user.id, email := user.email,
                             exp := now + 3600, secret := secret },
             user := some { id := user.id, name := user.name, email := user.email },
             redirect := some "/dashboard" },
           setVerified store email)

/-- `POST /api/login` (`src/unnamed/part_000` lines 238–282).  The
handler never writes to the store, so only the response is returned. -/
def login (store : List Account) (email password : String)
    (secret : String) (now : Nat) : Response :=
  if !(strTruthy email) || !(strTruthy password) then
    { status := 400, message := "Missing required fields: email, password" }
  else
    match (selectByEmail store email).head? with
    | none => { status := 401, message := "Invalid email or password" }
    | some user =>
        if !user.is_verified then
          { status := 403, message := "Please verify your email before logging in",
            redirect := some "/verify" }
        else if !(bverify password user.password) then
          { status := 401, message := "Invalid email or password" }
        else
          { status := 200, message := "Login successful",
            token := some { userId := user.id, email := user.email,
                            exp := now + 3600, secret := secret },
            user := some { id := user.id, name := user.name, email := user.email },
            redirect := some "/dashboard" }

/-! ## Process environment and startup behaviour of the two revisions -/

/-- The environment variables the lifecycle core reads at startup; a
variable that is not set is `none`. -/
structure Env where
  jwtSecret : Option String
  emailUser : Option String
  emailPass : Option String
deriving DecidableEq, Repr

/-- JavaScript truthiness of `process.env.X` (unset or empty is falsy). -/
def envTruthy (o : Option String) : Bool :=
  match o with
  | some s => !s.isEmpty
  | none => false

/-- `src/unnamed/part_000` lines 16–23: the consolidated revision calls
`process.exit(1)` when `JWT_SECRET`, `EMAIL_USER` or `EMAIL_PASS` is
falsy.  `true` means the process exits before serving any request. -/
def part000StartupExits (env : Env) : Bool :=
  !(envTruthy env.jwtSecret) || !(envTruthy env.emailUser) || !(envTruthy env.emailPass)

/-- `src/server.js` lines 10–19 only log; the legacy revision performs
no environment validation, so its startup never exits. -/
def serverJsStartupExits (_env : Env) : Bool := false

/-- `src/server.js` line 32:
`const JWT_SECRET = process.env.JWT_SECRET || "your_jwt_secret_123"` —
the legacy revision signs and verifies tokens with a hardcoded fallback
secret whenever the variable is falsy. -/
def serverJsJwtSecret (env : Env) : String :=
  match env.jwtSecret with
  | some s => if s.isEmpty then "your_jwt_secret_123" else s
  | none => "your_jwt_secret_123"

/-- `POST /api/login` of the legacy revision (`src/server.js` lines
178–214): same control flow as `login`, but the signing secret is the
module-level `JWT_SECRET` fallback expression and the success body is
`{ message, token }` with no `user` or `redirect` field. -/
def serverJsLogin (env : Env) (store : List Account)
    (email password : String) (now : Nat) : Response :=
  if !(strTruthy email) || !(strTruthy password) then
    { status := 400, message := "Missing required fields: email, password" }
  else
    match (selectByEmail store email).head? with
    | none => { status := 401, message := "Invalid email or password" }
    | some user =>
        if !user.is_verified then
          { status := 403, message := "Please verify your email before logging in" }
        else if !(bverify password user.password) then
          { status := 401, message := "Invalid email or password" }
        else
          { status := 200, message := "Login successful",
            token := some { userId := user.id, email := user.email,
                            exp := now + 3600, secret := serverJsJwtSecret env } }

/-- `POST /api/signup` of the legacy revision (`src/server.js` lines
85–143): presence and email-format checks, existence check, insert and
welcome mail exactly as in the consolidated revision, but with NO
length/strength validation between the format check and the existence
check, and with no redirect field in the success body.  Parameters as in
`signup`. -/
def serverJsSignup (store : List Account) (name email password : String)
    (freshId : Nat) (vcode : String) (insertError : Option String)
    (mailOk : Bool) : Response × List Account :=
  if !(strTruthy name) || !(strTruthy email) || !(strTruthy password) then
    ({ status := 400, message := "Missing required fields: name, email, password" }, store)
  else if !(emailRegexTest email) then
    ({ status := 400, message := "Invalid email format" }, store)
  else if (selectByEmail store email).length > 0 then
    ({ status := 400, message := "Email already registered" }, store)
  else
    match insertError with
    | some errMsg =>
        ({ status := 500, message := "Failed to register user", diag := some errMsg }, store)
    | none =>
        let store2 := store ++ [pendingAccount freshId name email password vcode]
        if mailOk then
          ({ status := 201,
             message := "User registered successfully! Please check your email for the verification code." },
           store2)
        else
          ({ status := 500,
             message := "User registered, but failed to send verification email" }, store2)

/-- `POST /api/verify-email` of the legacy revision (`src/server.js`
lines 146–175): same presence check, lookup, code comparison and store
update as the consolidated revision, but the success response is only
`{ message: "Email verified successfully!" }` — no session token is
issued and no user object is returned. -/
def serverJsVerifyEmail (store : List Account) (email code : String) :
    Response × List Account :=
  if !(strTruthy email) || !(strTruthy code) then
    ({ status := 400, message := "Missing required fields: email, code" }, store)
  else
    match (selectByEmail store email).head? with
    | none => ({ status := 404, message := "User not found" }, store)
    | some user =>
        if !(bverifyOpt code user.verification_code) then
          ({ status := 400, message := "Invalid verification code" }, store)
        else
          ({ status := 200, message := "Email verified successfully!" },
           setVerified store email)

/-! ## Rate limiter and route table (consolidated revision) -/

/-- `windowMs: 15 * 60 * 1000` (`src/unnamed/part_000` line 64). -/
def windowMs : Nat := 15 * 60 * 1000

/-- `max: 100` (`src/unnamed/part_000` line 65). -/
def maxRequests : Nat := 100

/-- Per-client window state of the rate limiter: start of the current
window and number of requests seen in it. -/
structure LimiterState where
  windowStart : Nat
  count : Nat
deriving DecidableEq, Repr

/-- Modelled from the spec: the Rate Limiter (`express-rate-limit`, a
library collaborator whose code is not under `src/`) keeps a fixed
window per client key; a request after the window elapsed starts a fresh
window, otherwise the counter increments and the request is allowed only
while the count stays within the ceiling.  `none` models a client key
with no recorded window.  Constants `windowMs`/`maxRequests` are the
configuration at `src/unnamed/part_000` lines 63–66. -/
def limiterStep (st : Option LimiterState) (now : Nat) : Bool × LimiterState :=
  match st with
  | none => (true, { windowStart := now, count := 1 })
  | some s =>
      if s.windowStart + windowMs ≤ now then
        (true, { windowStart := now, count := 1 })
      else
        (decide (s.count + 1 ≤ maxRequests),
         { windowStart := s.windowStart, count := s.count + 1 })

/-- The decisions of the limiter over a sequence of request times of one
client key, threading the window state. -/
def limiterRun (st : Option LimiterState) : List Nat → List Bool × Option LimiterState
  | [] => ([], st)
  | t :: ts =>
      let step := limiterStep st t
      let rest := limiterRun (some step.2) ts
      (step.1 :: rest.1, rest.2)

/-- The routes the consolidated revision registers
(`src/unnamed/part_000` lines 85–557). -/
inductive Route where
  | health | testDb | signupRoute | verifyEmailRoute | loginRoute | contact
  | babiesPost | babiesGet | schedulesPost | schedulesGet
  | expensesPost | expensesGet | milestonesPost | milestonesGet
  | dailyReadsPost | dailyReadsGet | scripturesPost | scripturesGet | userGet
deriving DecidableEq, Repr

/-- Which routes the limiter guards: `app.use("/api/signup", limiter)`,
`app.use("/api/login", limiter)`, `app.use("/api/verify-email", limiter)`
(lines 67–69) and the `limiter` middleware on `POST /api/contact`
(line 285).  No other route registration mentions `limiter`. -/
def hasLimiter : Route → Bool
  | .signupRoute => true
  | .loginRoute => true
  | .verifyEmailRoute => true
  | .contact => true
  | _ => false

/-! ## Lifecycle state machine -/

/-- One inbound request of the account-lifecycle core, with the
nondeterministic handler inputs recorded in the operation. -/
inductive Op where
  | signupOp (name email password : String) (freshId : Nat) (vcode : String)
      (insertError : Option String) (mailOk : Bool)
  | verifyOp (email code : String) (now : Nat) (confirmMailOk : Bool)
  | loginOp (email password : String) (now : Nat)

/-- Effect of one operation on the `users` table. -/
def applyOp (secret : String) (store : List Account) : Op → List Account
  | .signupOp n e p i v ie m => (signup store n e p i v ie m).2
  | .verifyOp e c t m => (verifyEmail store e c secret t m).2
  | .loginOp _ _ _ => store

/-- The table reached from the empty table by a sequence of operations. -/
def runOps (secret : String) (ops : List Op) : List Account :=
  ops.foldl (applyOp secret) []

/-- An account is *pending* (unverified with a code hash) or *active*
(verified with the code hash cleared); no third state. -/
def accountWellFormed (a : Account) : Bool :=
  if a.is_verified then a.verification_code.isNone else a.verification_code.isSome

/-- Whether the account the handlers would select for `email` is
verified (`false` when no account has that email). -/
def activeByEmail (store : List Account) (email : String) : Bool :=
  (((selectByEmail store email).head?).map (fun a => a.is_verified)).getD false

/-! ## Concrete fixtures for instantiating the theorems -/

/-- An environment with mail credentials but no `JWT_SECRET`. -/
def envNoSecret : Env :=
  { jwtSecret := none, emailUser := some "mama@x.com", emailPass := some "pw" }

/-- A pending account as signup creates it. -/
def amaPending : Account :=
  pendingAccount 1 "Ama" "ama@x.com" "password1" "123456"

/-- The same account once verified. -/
def amaActive : Account :=
  { id := 1, name := "Ama", email := "ama@x.com",
    password := bhash "password1", verification_code := none, is_verified := true }

/-- A one-request history: a successful signup. -/
def demoOps : List Op :=
  [.signupOp "Ama" "ama@x.com" "password1" 1 "123456" none true]

/-! ## Helper lemmas -/

theorem filter_map_comm {α : Type} (f : α → α) (p : α → Bool)
    (h : ∀ a, p (f a) = p a) :
    ∀ l : List α, (l.map f).filter p = (l.filter p).map f
  | [] => rfl
  | a :: l => by
      simp only [List.map_cons, List.filter_cons, h a]
      cases hp : p a <;> simp [hp, filter_map_comm f p h l]

theorem head?_map_comm {α β : Type} (f : α → β) (l : List α) :
    (l.map f).head? = l.head?.map f := by
  cases l <;> rfl

theorem selectByEmail_append (s l : List Account) (e : String) :
    selectByEmail (s ++ l) e = selectByEmail s e ++ selectByEmail l e := by
  simp [selectByEmail, List.filter_append]

theorem selectByEmail_setVerified (store : List Account) (e key : String) :
    selectByEmail (setVerified store e) key
      = (selectByEmail store key).map (fun a =>
          if a.email == e then
            { a with is_verified := true, verification_code := none }
          else a) := by
  unfold selectByEmail setVerified
  refine filter_map_comm _ _ (fun a => ?_) store
  cases h : a.email == e <;> simp [h]

theorem selectByEmail_head_email {store : List Account} {email : String} {u : Account}
    (h : (selectByEmail store email).head? = some u) : u.email = email := by
  have hmem : u ∈ selectByEmail store email := by
    cases hsel : selectByEmail store email with
    | nil => rw [hsel] at h; cases h
    | cons a l =>
        rw [hsel] at h
        simp only [List.head?_cons, Option.some.injEq] at h
        subst h
        exact List.mem_cons_self a l
  exact eq_of_beq (List.mem_filter.mp hmem).2

theorem signup_snd_cases (store : List Account) (name email password : String)
    (freshId : Nat) (vcode : String) (insertError : Option String) (mailOk : Bool) :
    (signup store name email password freshId vcode insertError mailOk).2 = store
    ∨ (signup store name email password freshId vcode insertError mailOk).2
        = store ++ [pendingAccount freshId name email password vcode] := by
  unfold signup
  split
  · exact Or.inl rfl
  · split
    · exact Or.inl rfl
    · split
      · exact Or.inl rfl
      · split
        · exact Or.inl rfl
        · split
          · exact Or.inl rfl
          · dsimp only
            split
            · exact Or.inr rfl
            · exact Or.inr rfl

theorem verifyEmail_snd_cases (store : List Account) (email code secret : String)
    (now : Nat) (mailOk : Bool) :
    (verifyEmail store email code secret now mailOk).2 = store
    ∨ (verifyEmail store email code secret now mailOk).2 = setVerified store email := by
  unfold verifyEmail
  split
  · exact Or.inl rfl
  · split
    · exact Or.inl rfl
    · split
      · exact Or.inl rfl
      · exact Or.inr rfl

theorem wf_setVerified (store : List Account) (e : String)
    (h : ∀ a ∈ store, accountWellFormed a = true) :
    ∀ a ∈ setVerified store e, accountWellFormed a = true := by
  intro a ha
  rw [setVerified] at ha
  obtain ⟨b, hb, rfl⟩ := List.mem_map.mp ha
  cases hbe : b.email == e
  · simpa [hbe] using h b hb
  · simp [hbe, accountWellFormed]

theorem wf_applyOp (secret : String) (store : List Account) (op : Op)
    (h : ∀ a ∈ store, accountWellFormed a = true) :
    ∀ a ∈ applyOp secret store op, accountWellFormed a = true := by
  intro a ha
  cases op with
  | signupOp n e p i v ie m =>
      rcases signup_snd_cases store n e p i v ie m with hc | hc <;>
        simp only [applyOp, hc] at ha
      · exact h a ha
      · rcases List.mem_append.mp ha with ha | ha
        · exact h a ha
        · simp only [List.mem_singleton] at ha
          subst ha
          rfl
  | verifyOp e c t m =>
      rcases verifyEmail_snd_cases store e c secret t m with hc | hc <;>
        simp only [applyOp, hc] at ha
      · exact h a ha
      · exact wf_setVerified store e h a ha
  | loginOp e p t =>
      simp only [applyOp] at ha
      exact h a ha

theorem wf_foldl (secret : String) :
    ∀ (ops : List Op) (store : List Account),
      (∀ a ∈ store, accountWellFormed a = true) →
      ∀ a ∈ ops.foldl (applyOp secret) store, accountWellFormed a = true
  | [], _, h => h
  | op :: ops, store, h => by
      simp only [List.foldl_cons]
      exact wf_foldl secret ops (applyOp secret store op) (wf_applyOp secret store op h)

theorem activeByEmail_append (store l : List Account) (e : String)
    (h : activeByEmail store e = true) : activeByEmail (store ++ l) e = true := by
  unfold activeByEmail at h ⊢
  rw [selectByEmail_append]
  cases hsel : (selectByEmail store e).head? with
  | none => rw [hsel] at h; cases h
  | some a =>
      rw [List.head?_append_of_ne_nil _ (by intro hnil; rw [hnil] at hsel; cases hsel),
        hsel]
      rw [hsel] at h
      exact h

theorem activeByEmail_setVerified (store : List Account) (e key : String)
    (h : activeByEmail store key = true) :
    activeByEmail (setVerified store e) key = true := by
  unfold activeByEmail at h ⊢
  rw [selectByEmail_setVerified, head?_map_comm]
  cases hsel : (selectByEmail store key).head? with
  | none => rw [hsel] at h; cases h
  | some a =>
      rw [hsel] at h
      simp only [Option.map_map, Option.map_some', Option.getD_some] at h ⊢
      cases hae : a.email == e <;> simp [hae, h]

theorem active_applyOp (secret : String) (store : List Account) (e : String) (op : Op)
    (h : activeByEmail store e = true) :
    activeByEmail (applyOp secret store op) e = true := by
  cases op with
  | signupOp n e' p i v ie m =>
      rcases signup_snd_cases store n e' p i v ie m with hc | hc <;>
        simp only [applyOp, hc]
      · exact h
      · exact activeByEmail_append store _ e h
  | verifyOp e' c t m =>
      rcases verifyEmail_snd_cases store e' c secret t m with hc | hc <;>
        simp only [applyOp, hc]
      · exact h
      · exact activeByEmail_setVerified store e' e h
  | loginOp _ _ _ => exact h

/-! ## Claim theorems -/

/-- Claim C3: every account reachable by any sequence of Signup,
VerifyEmail and Login operations is either pending (code hash present,
unverified) or active (code hash absent, verified) — in particular
`is_verified = true` implies the code hash is absent — and once the
account selected for an email is active, no operation ever makes it
pending again. -/
theorem C3_lifecycle_invariant (secret : String) (ops : List Op) :
    (∀ a ∈ runOps secret ops, accountWellFormed a = true)
    ∧ (∀ (s : List Account) (e : String) (op : Op),
        activeByEmail s e = true → activeByEmail (applyOp secret s op) e = true) :=
  ⟨by
    intro a ha
    exact wf_foldl secret ops [] (by intro a ha; cases ha) a ha,
   fun s e op h => active_applyOp secret s e op h⟩

/-- Witness for C3 at concrete inputs: the account created by a
successful signup is well-formed, and an active account stays active
across a further login operation. -/
theorem C3_lifecycle_invariant_witness :
    accountWellFormed (pendingAccount 1 "Ama" "ama@x.com" "password1" "123456") = true
    ∧ activeByEmail
        (applyOp "topsecret" [amaActive] (.loginOp "ama@x.com" "password1" 0))
        "ama@x.com" = true :=
  ⟨(C3_lifecycle_invariant "topsecret" demoOps).1 _ (by decide),
   (C3_lifecycle_invariant "topsecret" demoOps).2 [amaActive] "ama@x.com"
     (.loginOp "ama@x.com" "password1" 0) (by decide)⟩

theorem verifyEmail_success_eq (store : List Account) (email code secret : String)
    (now : Nat) (mailOk : Bool) (u : Account)
    (he : strTruthy email = true) (hc : strTruthy code = true)
    (hfind : (selectByEmail store email).head? = some u)
    (hmatch : bverifyOpt code u.verification_code = true) :
    verifyEmail store email code secret now mailOk
      = ({ status := 200,
           message := "Email verified successfully! You\x27re now logged in.",
           token := some { userId := u.id, email := u.email,
                           exp := now + 3600, secret := secret },
           user := some { id := u.id, name := u.name, email := u.email },
           redirect := some "/dashboard" },
         setVerified store email) := by
  unfold verifyEmail
  rw [he, hc, hfind]
  simp [hmatch]

theorem verifyEmail_nomatch_eq (store : List Account) (email code secret : String)
    (now : Nat) (mailOk : Bool) (u : Account)
    (he : strTruthy email = true) (hc : strTruthy code = true)
    (hfind : (selectByEmail store email).head? = some u)
    (hmatch : bverifyOpt code u.verification_code = false) :
    verifyEmail store email code secret now mailOk
      = ({ status := 400, message := "Invalid verification code" }, store) := by
  unfold verifyEmail
  rw [he, hc, hfind]
  simp [hmatch]

theorem serverJsVerifyEmail_success_eq (store : List Account) (email code : String)
    (u : Account)
    (he : strTruthy email = true) (hc : strTruthy code = true)
    (hfind : (selectByEmail store email).head? = some u)
    (hmatch : bverifyOpt code u.verification_code = true) :
    serverJsVerifyEmail store email code
      = ({ status := 200, message := "Email verified successfully!" },
         setVerified store email) := by
  unfold serverJsVerifyEmail
  rw [he, hc, hfind]
  simp [hmatch]

/-- Claim C4 counterexample: verifying the concrete pending account with
its correct code against the legacy `src/server.js` revision (cited by
the claim, lines 168–170) succeeds with status 200 but issues NO session
token and NO user object — so "issues a session token in the success
response (auto-login)" is false for that shipped revision. -/
theorem C4_counterexample :
    (serverJsVerifyEmail [amaPending] "ama@x.com" "123456").1.status = 200
    ∧ (serverJsVerifyEmail [amaPending] "ama@x.com" "123456").1.token = none
    ∧ (serverJsVerifyEmail [amaPending] "ama@x.com" "123456").1.user = none := by
  decide

/-- Claim C4 (amended): a VerifyEmail request on a pending account whose
code matches the stored hash makes the account active (verified, code
hash cleared) in both revisions.  In the consolidated revision it
returns 200 with a fresh session token (auto-login) and a user object of
exactly id, name and email — never the password hash or the code —
independently of whether the confirmation email could be delivered.  The
legacy revision applies the same store transition but returns only a 200
success message: no token and no user object. -/
theorem C4_verify_success (store : List Account) (email code secret : String)
    (now : Nat) (mailOk : Bool) (u : Account)
    (he : strTruthy email = true) (hc : strTruthy code = true)
    (hfind : (selectByEmail store email).head? = some u)
    (hmatch : bverifyOpt code u.verification_code = true) :
    (verifyEmail store email code secret now mailOk).1.status = 200
    ∧ (verifyEmail store email code secret now mailOk).1.token
        = some { userId := u.id, email := u.email, exp := now + 3600, secret := secret }
    ∧ (verifyEmail store email code secret now mailOk).1.user
        = some { id := u.id, name := u.name, email := u.email }
    ∧ (selectByEmail (verifyEmail store email code secret now mailOk).2 email).head?
        = some { u with is_verified := true, verification_code := none }
    ∧ (serverJsVerifyEmail store email code).1.status = 200
    ∧ (serverJsVerifyEmail store email code).1.token = none
    ∧ (serverJsVerifyEmail store email code).1.user = none
    ∧ (serverJsVerifyEmail store email code).2
        = (verifyEmail store email code secret now mailOk).2 := by
  rw [verifyEmail_success_eq store email code secret now mailOk u he hc hfind hmatch,
    serverJsVerifyEmail_success_eq store email code u he hc hfind hmatch]
  refine ⟨rfl, rfl, rfl, ?_, rfl, rfl, rfl, rfl⟩
  rw [selectByEmail_setVerified, head?_map_comm, hfind]
  have heq : u.email = email := selectByEmail_head_email hfind
  simp [heq]

/-- Witness for the amended C4: verifying the concrete pending account
with its correct code yields 200, the token and the minimal user object
in the consolidated revision, the active stored account in both, and a
token-free, user-free 200 in the legacy revision. -/
theorem C4_verify_success_witness :
    (verifyEmail [amaPending] "ama@x.com" "123456" "topsecret" 1000 false).1.status = 200
    ∧ (verifyEmail [amaPending] "ama@x.com" "123456" "topsecret" 1000 false).1.token
        = some { userId := 1, email := "ama@x.com", exp := 4600, secret := "topsecret" }
    ∧ (verifyEmail [amaPending] "ama@x.com" "123456" "topsecret" 1000 false).1.user
        = some { id := 1, name := "Ama", email := "ama@x.com" }
    ∧ (selectByEmail (verifyEmail [amaPending] "ama@x.com" "123456" "topsecret" 1000 false).2
        "ama@x.com").head? = some amaActive
    ∧ (serverJsVerifyEmail [amaPending] "ama@x.com" "123456").1.status = 200
    ∧ (serverJsVerifyEmail [amaPending] "ama@x.com" "123456").1.token = none
    ∧ (serverJsVerifyEmail [amaPending] "ama@x.com" "123456").1.user = none
    ∧ (serverJsVerifyEmail [amaPending] "ama@x.com" "123456").2
        = (verifyEmail [amaPending] "ama@x.com" "123456" "topsecret" 1000 false).2 :=
  C4_verify_success [amaPending] "ama@x.com" "123456" "topsecret" 1000 false amaPending
    (by decide) (by decide) (by decide) (by decide)

/-- Claim C5: once verification succeeded and cleared the code hash, a
second VerifyEmail request with the original correct code fails with the
InvalidCode outcome (400, "Invalid verification code") and leaves the
store unchanged. -/
theorem C5_reverify_invalid_code (store : List Account) (email code secret : String)
    (now now2 : Nat) (mailOk mailOk2 : Bool) (u : Account)
    (he : strTruthy email = true) (hc : strTruthy code = true)
    (hfind : (selectByEmail store email).head? = some u)
    (hmatch : bverifyOpt code u.verification_code = true) :
    (verifyEmail (verifyEmail store email code secret now mailOk).2
        email code secret now2 mailOk2).1.status = 400
    ∧ (verifyEmail (verifyEmail store email code secret now mailOk).2
        email code secret now2 mailOk2).1.message = "Invalid verification code"
    ∧ (verifyEmail (verifyEmail store email code secret now mailOk).2
        email code secret now2 mailOk2).2
        = (verifyEmail store email code secret now mailOk).2 := by
  have hsnd : (verifyEmail store email code secret now mailOk).2
      = setVerified store email := by
    rw [verifyEmail_success_eq store email code secret now mailOk u he hc hfind hmatch]
  have hfind2 : (selectByEmail (setVerified store email) email).head?
      = some { u with is_verified := true, verification_code := none } := by
    rw [selectByEmail_setVerified, head?_map_comm, hfind]
    have heq : u.email = email := selectByEmail_head_email hfind
    simp [heq]
  rw [hsnd,
    verifyEmail_nomatch_eq (setVerified store email) email code secret now2 mailOk2
      { u with is_verified := true, verification_code := none } he hc hfind2 rfl]
  exact ⟨rfl, rfl, rfl⟩

/-- Witness for C5: re-verifying the concrete account with the original
code after a successful verification returns 400 "Invalid verification
code". -/
theorem C5_reverify_invalid_code_witness :
    (verifyEmail (verifyEmail [amaPending] "ama@x.com" "123456" "topsecret" 1000 false).2
        "ama@x.com" "123456" "topsecret" 2000 true).1.status = 400
    ∧ (verifyEmail (verifyEmail [amaPending] "ama@x.com" "123456" "topsecret" 1000 false).2
        "ama@x.com" "123456" "topsecret" 2000 true).1.message = "Invalid verification code"
    ∧ (verifyEmail (verifyEmail [amaPending] "ama@x.com" "123456" "topsecret" 1000 false).2
        "ama@x.com" "123456" "topsecret" 2000 true).2
        = (verifyEmail [amaPending] "ama@x.com" "123456" "topsecret" 1000 false).2 :=
  C5_reverify_invalid_code [amaPending] "ama@x.com" "123456" "topsecret" 1000 2000
    false true amaPending (by decide) (by decide) (by decide) (by decide)

/-- Claim C6: a Login request for an email with no account and a Login
request for an existing verified account with a wrong password receive
the same status code (401) and the same message text ("Invalid email or
password"), so the response does not reveal whether the account exists. -/
theorem C6_login_no_enumeration (store : List Account) (e1 p1 e2 p2 secret : String)
    (now : Nat) (u : Account)
    (he1 : strTruthy e1 = true) (hp1 : strTruthy p1 = true)
    (he2 : strTruthy e2 = true) (hp2 : strTruthy p2 = true)
    (hnone : (selectByEmail store e1).head? = none)
    (hsome : (selectByEmail store e2).head? = some u)
    (hver : u.is_verified = true)
    (hbad : bverify p2 u.password = false) :
    (login store e1 p1 secret now).status = (login store e2 p2 secret now).status
    ∧ (login store e1 p1 secret now).message = (login store e2 p2 secret now).message
    ∧ (login store e1 p1 secret now).status = 401
    ∧ (login store e1 p1 secret now).message = "Invalid email or password" := by
  have h1 : login store e1 p1 secret now
      = { status := 401, message := "Invalid email or password" } := by
    unfold login
    rw [he1, hp1, hnone]
    simp
  have h2 : login store e2 p2 secret now
      = { status := 401, message := "Invalid email or password" } := by
    unfold login
    rw [he2, hp2, hsome]
    simp [hver, hbad]
  rw [h1, h2]
  exact ⟨rfl, rfl, rfl, rfl⟩

/-- Witness for C6: an unknown email and a wrong password against the
concrete verified account yield the identical 401 response. -/
theorem C6_login_no_enumeration_witness :
    (login [amaActive] "ghost@x.com" "whatever1" "topsecret" 0).status
      = (login [amaActive] "ama@x.com" "wrongpass" "topsecret" 0).status
    ∧ (login [amaActive] "ghost@x.com" "whatever1" "topsecret" 0).message
      = (login [amaActive] "ama@x.com" "wrongpass" "topsecret" 0).message
    ∧ (login [amaActive] "ghost@x.com" "whatever1" "topsecret" 0).status = 401
    ∧ (login [amaActive] "ghost@x.com" "whatever1" "topsecret" 0).message
      = "Invalid email or password" :=
  C6_login_no_enumeration [amaActive] "ghost@x.com" "whatever1" "ama@x.com" "wrongpass"
    "topsecret" 0 amaActive (by decide) (by decide) (by decide) (by decide)
    (by decide) (by decide) (by decide) (by decide)

/-- Claim C7: a Login request against an existing but unverified
(pending) account fails 403 "Please verify your email before logging in"
with no token, for every supplied password — the verification check is
decided before any password comparison. -/
theorem C7_login_pending_403 (store : List Account) (email password secret : String)
    (now : Nat) (u : Account)
    (he : strTruthy email = true) (hp : strTruthy password = true)
    (hfind : (selectByEmail store email).head? = some u)
    (hpend : u.is_verified = false) :
    (login store email password secret now).status = 403
    ∧ (login store email password secret now).message
        = "Please verify your email before logging in"
    ∧ (login store email password secret now).token = none := by
  have hl : login store email password secret now
      = { status := 403, message := "Please verify your email before logging in",
          redirect := some "/verify" } := by
    unfold login
    rw [he, hp, hfind]
    simp [hpend]
  rw [hl]
  exact ⟨rfl, rfl, rfl⟩

/-- Witness for C7: logging in to the concrete pending account with the
CORRECT password still yields 403 and no token. -/
theorem C7_login_pending_403_witness :
    (login [amaPending] "ama@x.com" "password1" "topsecret" 0).status = 403
    ∧ (login [amaPending] "ama@x.com" "password1" "topsecret" 0).message
        = "Please verify your email before logging in"
    ∧ (login [amaPending] "ama@x.com" "password1" "topsecret" 0).token = none :=
  C7_login_pending_403 [amaPending] "ama@x.com" "password1" "topsecret" 0 amaPending
    (by decide) (by decide) (by decide) (by decide)

/-- Claim C8: when a valid, unique signup creates the pending account
but the welcome email fails to send, the account stays in the store (no
rollback) and the response is the distinct 500 "User registered, but
failed to send verification email", not the generic signup failure. -/
theorem C8_signup_mail_failure (store : List Account) (name email password : String)
    (freshId : Nat) (vcode : String)
    (hn : strTruthy name = true) (he : strTruthy email = true)
    (hp : strTruthy password = true)
    (hregex : emailRegexTest email = true)
    (hlen : (name.length > 255 || email.length > 255 || password.length < 8) = false)
    (hnew : (selectByEmail store email).length = 0) :
    (signup store name email password freshId vcode none false).1.status = 500
    ∧ (signup store name email password freshId vcode none false).1.message
        = "User registered, but failed to send verification email"
    ∧ (signup store name email password freshId vcode none false).1.message
        ≠ "Failed to register user"
    ∧ (signup store name email password freshId vcode none false).2
        = store ++ [pendingAccount freshId name email password vcode] := by
  have hs : signup store name email password freshId vcode none false
      = ({ status := 500,
           message := "User registered, but failed to send verification email" },
         store ++ [pendingAccount freshId name email password vcode]) := by
    unfold signup
    rw [hn, he, hp, hregex, hlen, hnew]
    simp
  rw [hs]
  refine ⟨rfl, rfl, ?_, rfl⟩
  show "User registered, but failed to send verification email" ≠ "Failed to register user"
  decide

/-- Witness for C8: the concrete signup with failed mail delivery keeps
the pending account and reports the distinct notification failure. -/
theorem C8_signup_mail_failure_witness :
    (signup [] "Ama" "ama@x.com" "password1" 1 "123456" none false).1.status = 500
    ∧ (signup [] "Ama" "ama@x.com" "password1" 1 "123456" none false).1.message
        = "User registered, but failed to send verification email"
    ∧ (signup [] "Ama" "ama@x.com" "password1" 1 "123456" none false).1.message
        ≠ "Failed to register user"
    ∧ (signup [] "Ama" "ama@x.com" "password1" 1 "123456" none false).2
        = [] ++ [pendingAccount 1 "Ama" "ama@x.com" "password1" "123456"] :=
  C8_signup_mail_failure [] "Ama" "ama@x.com" "password1" 1 "123456"
    (by decide) (by decide) (by decide) (by decide) (by decide) (by decide)

/-- Claim C9 counterexample: against the legacy `src/server.js` revision
(cited by the claim, lines 86–96), a signup with the 5-character
password "short" passes validation — that revision has no
length/strength checks — and creates the account with status 201, so
"fails with ValidationError (400) and no account is created" is false
for that shipped revision. -/
theorem C9_counterexample :
    ("short".length < 8)
    ∧ (serverJsSignup [] "Ama" "ama@x.com" "short" 1 "123456" none true).1.status = 201
    ∧ (serverJsSignup [] "Ama" "ama@x.com" "short" 1 "123456" none true).2
        = [pendingAccount 1 "Ama" "ama@x.com" "short" "123456"] := by
  decide

/-- Claim C9 (amended): in the consolidated revision, a Signup request
whose name or email exceeds 255 characters or whose password is shorter
than 8 characters fails with a 400 validation response and leaves the
store unchanged.  The legacy revision has no length/strength checks, so
the same request — when it passes the presence and email-format checks
it does have and the email is unused — creates the pending account and
returns 201. -/
theorem C9_signup_validation (store : List Account) (name email password : String)
    (freshId : Nat) (vcode : String) (insertError : Option String) (mailOk : Bool)
    (h : 255 < name.length ∨ 255 < email.length ∨ password.length < 8) :
    ((signup store name email password freshId vcode insertError mailOk).1.status = 400
     ∧ (signup store name email password freshId vcode insertError mailOk).2 = store
     ∧ ((signup store name email password freshId vcode insertError mailOk).1.message
           = "Missing required fields: name, email, password"
        ∨ (signup store name email password freshId vcode insertError mailOk).1.message
           = "Invalid email format"
        ∨ (signup store name email password freshId vcode insertError mailOk).1.message
           = "Invalid input lengths"))
    ∧ (strTruthy name = true → strTruthy email = true → strTruthy password = true →
       emailRegexTest email = true → (selectByEmail store email).length = 0 →
       (serverJsSignup store name email password freshId vcode none true).1.status = 201
       ∧ (serverJsSignup store name email password freshId vcode none true).2
           = store ++ [pendingAccount freshId name email password vcode]) := by
  constructor
  · by_cases h1 : (!(strTruthy name) || !(strTruthy email) || !(strTruthy password)) = true
    · have hs : signup store name email password freshId vcode insertError mailOk
          = ({ status := 400,
               message := "Missing required fields: name, email, password" }, store) := by
        unfold signup
        rw [h1]
        simp
      rw [hs]
      exact ⟨rfl, rfl, Or.inl rfl⟩
    · rw [Bool.not_eq_true] at h1
      by_cases h2 : (!(emailRegexTest email)) = true
      · have hs : signup store name email password freshId vcode insertError mailOk
            = ({ status := 400, message := "Invalid email format" }, store) := by
          unfold signup
          rw [h1, h2]
          simp
        rw [hs]
        exact ⟨rfl, rfl, Or.inr (Or.inl rfl)⟩
      · rw [Bool.not_eq_true] at h2
        have h3 : (name.length > 255 || email.length > 255 || password.length < 8) = true := by
          simp only [Bool.or_eq_true, decide_eq_true_eq]
          rcases h with h | h | h
          · exact Or.inl (Or.inl h)
          · exact Or.inl (Or.inr h)
          · exact Or.inr h
        have hs : signup store name email password freshId vcode insertError mailOk
            = ({ status := 400, message := "Invalid input lengths" }, store) := by
          unfold signup
          rw [h1, h2, h3]
          simp
        rw [hs]
        exact ⟨rfl, rfl, Or.inr (Or.inr rfl)⟩
  · intro hn he hp hregex hnew
    have hs : serverJsSignup store name email password freshId vcode none true
        = ({ status := 201,
             message := "User registered successfully! Please check your email for the verification code." },
           store ++ [pendingAccount freshId name email password vcode]) := by
      unfold serverJsSignup
      rw [hn, he, hp, hregex, hnew]
      simp
    rw [hs]
    exact ⟨rfl, rfl⟩

/-- Witness for the amended C9: a signup with a 5-character password is
rejected 400 with no account created by the consolidated revision, while
the legacy revision accepts it with 201 and creates the account. -/
theorem C9_signup_validation_witness :
    ((signup [] "Ama" "ama@x.com" "short" 1 "123456" none true).1.status = 400
     ∧ (signup [] "Ama" "ama@x.com" "short" 1 "123456" none true).2 = []
     ∧ ((signup [] "Ama" "ama@x.com" "short" 1 "123456" none true).1.message
           = "Missing required fields: name, email, password"
        ∨ (signup [] "Ama" "ama@x.com" "short" 1 "123456" none true).1.message
           = "Invalid email format"
        ∨ (signup [] "Ama" "ama@x.com" "short" 1 "123456" none true).1.message
           = "Invalid input lengths"))
    ∧ ((serverJsSignup [] "Ama" "ama@x.com" "short" 1 "123456" none true).1.status = 201
       ∧ (serverJsSignup [] "Ama" "ama@x.com" "short" 1 "123456" none true).2
           = [] ++ [pendingAccount 1 "Ama" "ama@x.com" "short" "123456"]) :=
  ⟨(C9_signup_validation [] "Ama" "ama@x.com" "short" 1 "123456" none true (by decide)).1,
   (C9_signup_validation [] "Ama" "ama@x.com" "short" 1 "123456" none true (by decide)).2
     (by decide) (by decide) (by decide) (by decide) (by decide)⟩

/-- Claim C1 counterexample: with `JWT_SECRET` unset (and mail
credentials present), the legacy `server.js` revision does not exit at
startup and serves a login request whose issued session token is signed
with the hardcoded fallback secret `your_jwt_secret_123` — so it is not
true that the service refuses to start, nor that no execution signs
tokens with a default/guessable secret. -/
theorem C1_counterexample :
    serverJsStartupExits envNoSecret = false
    ∧ (serverJsLogin envNoSecret [amaActive] "ama@x.com" "password1" 0).status = 200
    ∧ (serverJsLogin envNoSecret [amaActive] "ama@x.com" "password1" 0).token
        = some { userId := 1, email := "ama@x.com", exp := 3600,
                 secret := "your_jwt_secret_123" } := by
  decide

/-- Claim C1 (amended): in the consolidated revision
(`src/unnamed/part_000`) a falsy `JWT_SECRET` is a fatal startup error —
the process exits before serving requests — while the legacy revision
(`src/server.js`) performs no startup check and falls back to signing
with the hardcoded secret `your_jwt_secret_123`. -/
theorem C1_amended_startup (env : Env) (h : envTruthy env.jwtSecret = false) :
    part000StartupExits env = true
    ∧ serverJsJwtSecret env = "your_jwt_secret_123" := by
  constructor
  · unfold part000StartupExits
    rw [h]
    rfl
  · unfold serverJsJwtSecret
    cases henv : env.jwtSecret with
    | none => rfl
    | some s =>
        rw [henv] at h
        simp only [envTruthy] at h
        simp at h
        simp [h]

/-- Witness for the amended C1 at the concrete secretless environment. -/
theorem C1_amended_startup_witness :
    part000StartupExits envNoSecret = true
    ∧ serverJsJwtSecret envNoSecret = "your_jwt_secret_123" :=
  C1_amended_startup envNoSecret (by decide)

/-- Claim C2 counterexample: a signup whose own existence check passes
but whose INSERT raises a store-level duplicate error is answered by the
generic catch handler — 500 "Failed to register user" — not by the
Conflict outcome (the Conflict response of this code is 400 "Email already
registered"). -/
theorem C2_counterexample :
    (signup [] "Ama" "ama@x.com" "password1" 1 "123456"
        (some "ER_DUP_ENTRY: Duplicate entry ama@x.com for key users.email")
        true).1.status = 500
    ∧ (signup [] "Ama" "ama@x.com" "password1" 1 "123456"
        (some "ER_DUP_ENTRY: Duplicate entry ama@x.com for key users.email")
        true).1.message = "Failed to register user"
    ∧ (signup [] "Ama" "ama@x.com" "password1" 1 "123456"
        (some "ER_DUP_ENTRY: Duplicate entry ama@x.com for key users.email")
        true).1.message ≠ "Email already registered"
    ∧ (signup [] "Ama" "ama@x.com" "password1" 1 "123456"
        (some "ER_DUP_ENTRY: Duplicate entry ama@x.com for key users.email")
        true).1.status ≠ 400
    ∧ (signup [] "Ama" "ama@x.com" "password1" 1 "123456"
        (some "ER_DUP_ENTRY: Duplicate entry ama@x.com for key users.email")
        true).1.status ≠ 409 := by
  decide

/-- Claim C2 (amended): for a valid signup, a duplicate detected by the
own existence check of the controller yields the Conflict outcome (400 "Email
already registered"), while a store-level uniqueness violation raised by
the subsequent INSERT is reported by the generic catch handler as 500
"Failed to register user" with the store error in the diagnostic field —
not as Conflict. -/
theorem C2_amended_duplicate_handling (store : List Account)
    (name email password : String) (freshId : Nat) (vcode : String)
    (mailOk : Bool) (errMsg : String)
    (hn : strTruthy name = true) (he : strTruthy email = true)
    (hp : strTruthy password = true) (hregex : emailRegexTest email = true)
    (hlen : (name.length > 255 || email.length > 255 || password.length < 8) = false) :
    ((selectByEmail store email).length > 0 →
      (signup store name email password freshId vcode none mailOk).1.status = 400
      ∧ (signup store name email password freshId vcode none mailOk).1.message
          = "Email already registered")
    ∧ ((selectByEmail store email).length = 0 →
      (signup store name email password freshId vcode (some errMsg) mailOk).1.status = 500
      ∧ (signup store name email password freshId vcode (some errMsg) mailOk).1.message
          = "Failed to register user"
      ∧ (signup store name email password freshId vcode (some errMsg) mailOk).1.diag
          = some errMsg) := by
  constructor
  · intro hdup
    have hs : signup store name email password freshId vcode none mailOk
        = ({ status := 400, message := "Email already registered" }, store) := by
      unfold signup
      rw [hn, he, hp, hregex, hlen]
      simp [hdup]
    rw [hs]
    exact ⟨rfl, rfl⟩
  · intro hnew
    have hs : signup store name email password freshId vcode (some errMsg) mailOk
        = ({ status := 500, message := "Failed to register user",
             diag := some errMsg }, store) := by
      unfold signup
      rw [hn, he, hp, hregex, hlen, hnew]
      simp
    rw [hs]
    exact ⟨rfl, rfl, rfl⟩

/-- Witness for the amended C2: against a store holding the account, the
existence check answers Conflict; against an empty store, an INSERT
failure is answered by the generic 500. -/
theorem C2_amended_duplicate_handling_witness :
    ((signup [amaActive] "Ama" "ama@x.com" "password1" 2 "654321" none true).1.status = 400
      ∧ (signup [amaActive] "Ama" "ama@x.com" "password1" 2 "654321" none true).1.message
          = "Email already registered")
    ∧ ((signup [] "Ama" "ama@x.com" "password1" 1 "123456" (some "dup") true).1.status = 500
      ∧ (signup [] "Ama" "ama@x.com" "password1" 1 "123456" (some "dup") true).1.message
          = "Failed to register user"
      ∧ (signup [] "Ama" "ama@x.com" "password1" 1 "123456" (some "dup") true).1.diag
          = some "dup") :=
  ⟨(C2_amended_duplicate_handling [amaActive] "Ama" "ama@x.com" "password1" 2 "654321"
      true "dup" (by decide) (by decide) (by decide) (by decide) (by decide)).1
    (by decide),
   (C2_amended_duplicate_handling [] "Ama" "ama@x.com" "password1" 1 "123456"
      true "dup" (by decide) (by decide) (by decide) (by decide) (by decide)).2
    (by decide)⟩

theorem limiterRun_final_inWindow (ws : Nat) :
    ∀ (ts : List Nat) (c : Nat), (∀ t ∈ ts, t < ws + windowMs) →
      (limiterRun (some ⟨ws, c⟩) ts).2 = some ⟨ws, c + ts.length⟩
  | [], _, _ => rfl
  | t :: ts, c, h => by
      have ht : ¬(ws + windowMs ≤ t) := Nat.not_le.mpr (h t (List.mem_cons_self t ts))
      have ih := limiterRun_final_inWindow ws ts (c + 1)
        (fun x hx => h x (List.mem_cons_of_mem t hx))
      simp only [limiterRun, limiterStep, if_neg ht]
      rw [ih]
      have harith : c + 1 + ts.length = c + (ts.length + 1) := by omega
      rw [harith]
      rfl

theorem limiterRun_all_allowed (ws : Nat) :
    ∀ (ts : List Nat) (c : Nat), (∀ t ∈ ts, t < ws + windowMs) →
      c + ts.length ≤ maxRequests →
      (limiterRun (some ⟨ws, c⟩) ts).1.all (fun b => b) = true
  | [], _, _, _ => rfl
  | t :: ts, c, h, hcap => by
      have ht : ¬(ws + windowMs ≤ t) := Nat.not_le.mpr (h t (List.mem_cons_self t ts))
      have hc1 : c + 1 ≤ maxRequests := by
        simp only [List.length_cons] at hcap
        omega
      have ih := limiterRun_all_allowed ws ts (c + 1)
        (fun x hx => h x (List.mem_cons_of_mem t hx))
        (by simp only [List.length_cons] at hcap; omega)
      simp only [limiterRun, limiterStep, if_neg ht, List.all_cons]
      rw [ih]
      simp [hc1]

/-- Claim C10: within one 15-minute window of a single client key, the
first 100 requests are all allowed and the 101st is rejected; the first
request after the window has elapsed is allowed with a fresh window; and
the limiter guards exactly the signup, login, verify-email and contact
routes, no other traffic. -/
theorem C10_rate_limiter :
    (∀ (t0 : Nat) (ts : List Nat) (tLast : Nat),
        ts.length = 99 → (∀ t ∈ ts, t < t0 + windowMs) → tLast < t0 + windowMs →
        ((limiterRun none (t0 :: ts)).1.all (fun b => b) = true
         ∧ (limiterStep (limiterRun none (t0 :: ts)).2 tLast).1 = false))
    ∧ (∀ (ws c t : Nat), ws + windowMs ≤ t →
        limiterStep (some ⟨ws, c⟩) t = (true, ⟨t, 1⟩))
    ∧ (∀ r : Route, hasLimiter r = true ↔
        (r = Route.signupRoute ∨ r = Route.loginRoute
         ∨ r = Route.verifyEmailRoute ∨ r = Route.contact)) := by
  refine ⟨?_, ?_, ?_⟩
  · intro t0 ts tLast hlen hin hlast
    have hrun : limiterRun none (t0 :: ts)
        = ((true :: (limiterRun (some ⟨t0, 1⟩) ts).1),
           (limiterRun (some ⟨t0, 1⟩) ts).2) := by
      simp [limiterRun, limiterStep]
    constructor
    · rw [hrun]
      simp only [List.all_cons, Bool.true_and]
      exact limiterRun_all_allowed t0 ts 1 hin (by rw [hlen]; decide)
    · rw [hrun]
      simp only
      rw [limiterRun_final_inWindow t0 ts 1 hin, hlen]
      simp only [limiterStep, if_neg (Nat.not_le.mpr hlast)]
      rfl
  · intro ws c t h
    simp [limiterStep, if_pos h]
  · intro r
    cases r <;> decide

/-- Witness for C10 at concrete inputs: one hundred in-window requests
are allowed and the 101st refused; a request one full window later is
accepted with a reset counter; the contact route carries the limiter. -/
theorem C10_rate_limiter_witness :
    ((limiterRun none (0 :: List.replicate 99 1)).1.all (fun b => b) = true
     ∧ (limiterStep (limiterRun none (0 :: List.replicate 99 1)).2 2).1 = false)
    ∧ limiterStep (some ⟨7, 3⟩) (7 + windowMs) = (true, ⟨7 + windowMs, 1⟩)
    ∧ (hasLimiter Route.contact = true ↔
        (Route.contact = Route.signupRoute ∨ Route.contact = Route.loginRoute
         ∨ Route.contact = Route.verifyEmailRoute ∨ Route.contact = Route.contact)) :=
  ⟨C10_rate_limiter.1 0 (List.replicate 99 1) 2 (by decide) (by decide) (by decide),
   C10_rate_limiter.2.1 7 3 (7 + windowMs) (Nat.le_refl _),
   C10_rate_limiter.2.2 Route.contact⟩

end MamaCare
